import Mathlib

/- Shallow embedding of the gyee p2p chain shell (src/p2p/shell/chainshell.go)
   and of the task scheduler bookkeeping (src/p2p/scheduler/schimpl.go),
   together with theorems settling the specification claims. -/

/-- Scheduler error codes (Go type SchErrno). Only the constructors reached by
    the embedded functions are modelled; the numeric enum values are never
    inspected by the source paths in question. -/
inductive SchErrno where
  | SchEnoNone
  | SchEnoParameter
  | SchEnoResource
  | SchEnoUserTask
  | SchEnoNotFound
  | SchEnoDuplicated
  | SchEnoMismatched
  | SchEnoInternal
  | SchEnoSuspended
deriving DecidableEq

open SchErrno

/-- Timer manager error codes of the dht timer manager (dht.TmEnoNone and the
    failure codes). The dht package is not under src; only success versus
    failure is distinguished by the chain shell. -/
inductive TmEno where
  | TmEnoNone
  | TmEnoFailed
deriving DecidableEq

open TmEno

/-- Modelled from the spec: the dht.TimerManager used by the chain shell for
    its deduplication timers (the dht package is not under src). Per the spec,
    get_timer hands out a timer or reports resource exhaustion, start_timer
    arms it, kill_timer disarms it. Handles are allocated from the counter
    next; live is the set of armed handles. The oracles getOk and startOk
    decide which calls succeed, so theorems quantify over every possible
    timer-manager behavior. -/
structure TimerMgr where
  next : Nat
  live : List Nat
  getOk : Nat → Bool
  startOk : Nat → Bool

/-- GetTimer: allocate a fresh handle, or fail according to the oracle. -/
def TimerMgr.getTimer (t : TimerMgr) : TmEno × Nat × TimerMgr :=
  if t.getOk t.next then (TmEnoNone, t.next, { t with next := t.next + 1 })
  else (TmEnoFailed, 0, t)

/-- StartTimer: arm a handle, or fail according to the oracle. -/
def TimerMgr.startTimer (t : TimerMgr) (h : Nat) : TmEno × TimerMgr :=
  if t.startOk h then (TmEnoNone, { t with live := h :: t.live })
  else (TmEnoFailed, t)

/-- KillTimer: disarm a handle. -/
def TimerMgr.killTimer (t : TimerMgr) (h : Nat) : TimerMgr :=
  { t with live := t.live.erase h }

/-- Lookup of the first binding of a key, modelling a Go map read. -/
def assocFind {α β : Type} [DecidableEq α] : List (α × β) → α → Option β
  | [], _ => none
  | (k, v) :: rest, a => if k = a then some v else assocFind rest a

/-- Update of the first binding of a key, modelling a Go map write through a
    pointer held in the map value. -/
def assocSet {α β : Type} [DecidableEq α] : List (α × β) → α → β → List (α × β)
  | [], _, _ => []
  | (k, v) :: rest, a, b =>
    if k = a then (k, b) :: rest else (k, v) :: assocSet rest a b

/-- Deletion of the first binding of a key, modelling a Go map delete. -/
def assocErase {α β : Type} [DecidableEq α] : List (α × β) → α → List (α × β)
  | [], _ => []
  | (k, v) :: rest, a => if k = a then rest else (k, v) :: assocErase rest a

/-- Content key (config.DsKey, a 32-byte hash), modelled as an opaque Nat. -/
abbrev DsKey := Nat

/-- Shell peer identity (struct shellPeerID): sub network id, direction and
    node id, each modelled as an opaque Nat. -/
structure ShellPeerID where
  snid : Nat
  dir : Nat
  nodeId : Nat
deriving DecidableEq

/-- Peer status constant pisActive (iota value 0 in the source). -/
def pisActive : Nat := 0

/-- Peer status constant pisClosing (iota value 1 in the source). -/
def pisClosing : Nat := 1

/-- Broadcast request (sch.MsgShellBroadcastReq): message type, content key,
    payload bytes and optional excluded node id. -/
structure MsgShellBroadcastReq where
  msgType : Nat
  key : DsKey
  data : List Nat
  exclude : Option Nat
deriving DecidableEq

/-- Modelled from the spec: broadcast message type code MSBR_MT_EV (the
    constants are declared in the scheduler package outside src; only their
    distinctness is used). -/
def MSBR_MT_EV : Nat := 0

/-- Modelled from the spec: broadcast message type code MSBR_MT_TX. -/
def MSBR_MT_TX : Nat := 1

/-- Modelled from the spec: broadcast message type code MSBR_MT_BLKH. -/
def MSBR_MT_BLKH : Nat := 2

/-- Modelled from the spec: broadcast message type code MSBR_MT_BLK. -/
def MSBR_MT_BLK : Nat := 3

/-- Modelled from the spec: protocol id PID_EXT for extended chain messages
    (peer package, outside src); the value is opaque. -/
def PID_EXT : Nat := 1

/-- Modelled from the spec: key status EXIST = 1 carried by RPTK frames. -/
def KS_EXIST : Int := 1

/-- Modelled from the spec: key status NOTEXIST = 0 carried by RPTK frames. -/
def KS_NOTEXIST : Int := 0

/-- A frame queued on the tx channel of a peer. The wire encoding done by the
    peer package (outside src) is kept abstract: each constructor records the
    fields the chain shell hands to the encoder. -/
inductive TxFrame where
  | pkgPayload (pid : Nat) (mid : Nat) (key : DsKey) (payload : List Nat)
  | pkgChkk (key : DsKey)
  | pkgRptk (key : DsKey) (status : Int)
deriving DecidableEq

/-- Active peer record (struct shellPeerInst). The Go tx channel is modelled
    as the list of queued frames together with its capacity. -/
structure ShellPeerInst where
  id : ShellPeerID
  txChan : List TxFrame
  txCap : Nat
  status : Nat
  txDiscrd : Int
deriving DecidableEq

/-- Pending-negotiation key (struct deDupKey). -/
structure DeDupKey where
  key : DsKey
  peer : ShellPeerID
deriving DecidableEq

/-- Pending-negotiation value (struct deDupVal): the saved broadcast request
    and the handle of the pending timer. -/
structure DeDupVal where
  bcReq : MsgShellBroadcastReq
  timer : Nat
deriving DecidableEq

/-- Chain shell manager state (struct ShellManager): the active-peer table,
    the deduplication flag, the known-key map K (deDupKeyMap) and the
    pending-negotiation map P (deDupMap). -/
structure ShellManager where
  peerActived : List (ShellPeerID × ShellPeerInst)
  deDup : Bool
  deDupKeyMap : List (DsKey × Nat)
  deDupMap : List (DeDupKey × DeDupVal)
deriving DecidableEq

/-- Key-map result SKM_OK (iota value 0). -/
def SKM_OK : Nat := 0

/-- Key-map result SKM_DUPLICATED (iota value 1). -/
def SKM_DUPLICATED : Nat := 1

/-- Key-map result SKM_FAILED (iota value 2). -/
def SKM_FAILED : Nat := 2

/-- checkKeyMap (chainshell.go): read-only membership test on the known-key
    map K. -/
def checkKeyMap (st : ShellManager) (k : DsKey) : Nat :=
  if (assocFind st.deDupKeyMap k).isSome then SKM_DUPLICATED else SKM_OK

/-- setKeyMap (chainshell.go): insert a key into K and arm its keyTime
    eviction timer. The source tests the variable err a second time after the
    StartTimer call, but err still holds the GetTimer result and the
    StartTimer result is discarded; the embedding reproduces that stale test
    verbatim. SetTimerData is implicit: the eviction callback receives the
    key directly. -/
def setKeyMap (st : ShellManager) (tmgr : TimerMgr) (k : DsKey) :
    Nat × ShellManager × TimerMgr :=
  if (assocFind st.deDupKeyMap k).isSome then (SKM_DUPLICATED, st, tmgr)
  else
    match TimerMgr.getTimer tmgr with
    | (err, tm, tmgr1) =>
      if err ≠ TmEnoNone then (SKM_FAILED, st, tmgr1)
      else
        let started := TimerMgr.startTimer tmgr1 tm
        if err ≠ TmEnoNone then (SKM_FAILED, st, started.2)
        else (SKM_OK, { st with deDupKeyMap := (k, tm) :: st.deDupKeyMap }, started.2)

/-- deDupKeyCb (chainshell.go): callback run when the keyTime eviction timer
    of a key expires; it deletes the key from K. -/
def deDupKeyCb (st : ShellManager) (k : DsKey) : ShellManager :=
  { st with deDupKeyMap := assocErase st.deDupKeyMap k }

/-- deDupTimerCb (chainshell.go): callback run when the chkkTime timer of a
    pending-negotiation entry expires; it deletes the entry from P (and only
    from P, see the lock note in the source). -/
def deDupTimerCb (st : ShellManager) (ddk : DeDupKey) : ShellManager :=
  { st with deDupMap := assocErase st.deDupMap ddk }

/-- bcr2Package (chainshell.go): encode a broadcast request as an extended
    protocol package (PID_EXT, message type as mid, key and payload). -/
def bcr2Package (req : MsgShellBroadcastReq) : TxFrame :=
  TxFrame.pkgPayload PID_EXT req.msgType req.key req.data

/-- send2Peer (chainshell.go): non-blocking bounded send of a broadcast
    payload. On a full tx queue the frame is discarded, the per-peer discard
    counter txDiscrd is incremented and SchEnoResource is returned; otherwise
    the encoded package is appended to the tx channel. -/
def send2Peer (spi : ShellPeerInst) (req : MsgShellBroadcastReq) :
    SchErrno × ShellPeerInst :=
  if spi.txChan.length ≥ spi.txCap then
    (SchEnoResource, { spi with txDiscrd := spi.txDiscrd + 1 })
  else
    (SchEnoNone, { spi with txChan := spi.txChan ++ [bcr2Package req] })

/-- checkKey2Peer (chainshell.go): send a CHKK frame, with the same bounded
    non-blocking send discipline as send2Peer. The Go function returns an
    error value: none models nil, some models the returned error. The wire
    encoding (peer package, outside src) cannot fail in the model. -/
def checkKey2Peer (spi : ShellPeerInst) (ddk : DeDupKey) :
    Option SchErrno × ShellPeerInst :=
  if spi.txChan.length ≥ spi.txCap then
    (some SchEnoResource, { spi with txDiscrd := spi.txDiscrd + 1 })
  else
    (none, { spi with txChan := spi.txChan ++ [TxFrame.pkgChkk ddk.key] })

/-- reportKey2Peer (chainshell.go): send an RPTK frame carrying a key and its
    status, with the same bounded non-blocking send discipline. -/
def reportKey2Peer (spi : ShellPeerInst) (k : DsKey) (status : Int) :
    Option SchErrno × ShellPeerInst :=
  if spi.txChan.length ≥ spi.txCap then
    (some SchEnoResource, { spi with txDiscrd := spi.txDiscrd + 1 })
  else
    (none, { spi with txChan := spi.txChan ++ [TxFrame.pkgRptk k status] })

/-- checkKey (chainshell.go): start a CHKK negotiation with one peer, in the
    source order: peer lookup, duplicate test on P, CHKK send (mutating the
    peer record through its pointer), timer allocation, insertion into P,
    timer start. -/
def checkKey (st : ShellManager) (tmgr : TimerMgr) (pid : ShellPeerID)
    (req : MsgShellBroadcastReq) : SchErrno × ShellManager × TimerMgr :=
  let ddk : DeDupKey := { key := req.key, peer := pid }
  match assocFind st.peerActived pid with
  | none => (SchEnoNotFound, st, tmgr)
  | some pai =>
    if (assocFind st.deDupMap ddk).isSome then (SchEnoDuplicated, st, tmgr)
    else
      match checkKey2Peer pai ddk with
      | (some _, pai1) =>
        (SchEnoUserTask,
          { st with peerActived := assocSet st.peerActived pid pai1 }, tmgr)
      | (none, pai1) =>
        let st1 := { st with peerActived := assocSet st.peerActived pid pai1 }
        match TimerMgr.getTimer tmgr with
        | (TmEnoNone, tm, tmgr1) =>
          let st2 :=
            { st1 with deDupMap := (ddk, { bcReq := req, timer := tm }) :: st1.deDupMap }
          match TimerMgr.startTimer tmgr1 tm with
          | (TmEnoNone, tmgr2) => (SchEnoNone, st2, tmgr2)
          | (_, tmgr2) => (SchEnoUserTask, st2, tmgr2)
        | (_, _, tmgr1) => (SchEnoUserTask, st1, tmgr1)

/-- Exclusion filter of the broadcastReq peer loop: a peer passes when no
    exclude node is given or its node id differs from it (bytes.Compare
    rendered as Nat comparison). -/
def bcrNotExcluded (ex : Option Nat) (pid : ShellPeerID) : Bool :=
  match ex with
  | none => true
  | some x => pid.nodeId != x

/-- One iteration of the peer loop of broadcastReq: skip peers that are not
    active, apply the exclusion filter, then either send directly when
    deduplication is off or start the CHKK negotiation when it is on. -/
def bcastPeerStep (deDup : Bool) (req : MsgShellBroadcastReq)
    (st : ShellManager) (tmgr : TimerMgr) (pid : ShellPeerID) :
    ShellManager × TimerMgr :=
  match assocFind st.peerActived pid with
  | none => (st, tmgr)
  | some pe =>
    if pe.status ≠ pisActive then (st, tmgr)
    else if bcrNotExcluded req.exclude pid then
      if deDup = false then
        let sent := send2Peer pe req
        ({ st with peerActived := assocSet st.peerActived pid sent.2 }, tmgr)
      else
        let r := checkKey st tmgr pid req
        (r.2.1, r.2.2)
    else (st, tmgr)

/-- The peer loop of broadcastReq, iterating over the identities of the
    active-peer table. -/
def bcastLoop (deDup : Bool) (req : MsgShellBroadcastReq) :
    List ShellPeerID → ShellManager → TimerMgr → ShellManager × TimerMgr
  | [], st, tmgr => (st, tmgr)
  | pid :: rest, st, tmgr =>
    let acc := bcastPeerStep deDup req st tmgr pid
    bcastLoop deDup req rest acc.1 acc.2

/-- The message-type switch of broadcastReq: only the four broadcast types
    are accepted. -/
def validBcrType (mt : Nat) : Bool :=
  mt == MSBR_MT_EV || mt == MSBR_MT_TX || mt == MSBR_MT_BLKH || mt == MSBR_MT_BLK

/-- broadcastReq (chainshell.go): fan a broadcast request out to the active
    peers. With deduplication on, the key is first inserted into K through
    setKeyMap; a Duplicated or Failed result aborts the whole request with
    SchEnoUserTask before the peer loop runs. An invalid message type yields
    SchEnoParameter. Statistics and logging are omitted. -/
def broadcastReq (st : ShellManager) (tmgr : TimerMgr)
    (req : MsgShellBroadcastReq) : SchErrno × ShellManager × TimerMgr :=
  if validBcrType req.msgType then
    let pre := if st.deDup then setKeyMap st tmgr req.key else (SKM_OK, st, tmgr)
    if st.deDup && (pre.1 == SKM_DUPLICATED || pre.1 == SKM_FAILED) then
      (SchEnoUserTask, pre.2.1, pre.2.2)
    else
      let r := bcastLoop st.deDup req (pre.2.1.peerActived.map Prod.fst) pre.2.1 pre.2.2
      (SchEnoNone, r.1, r.2)
  else (SchEnoParameter, st, tmgr)

/-- checkKeyFromPeer (chainshell.go): handler for an inbound CHKK frame. The
    wire decode (GetExtMessage) and the message-id check are performed by the
    peer package outside src and are presupposed to have succeeded, so the
    handler is entered with the sending peer identity and the carried key. It
    looks the key up in K and answers with an RPTK frame on the tx channel of
    the sender. -/
def checkKeyFromPeer (st : ShellManager) (spid : ShellPeerID) (k : DsKey) :
    SchErrno × ShellManager :=
  match assocFind st.peerActived spid with
  | none => (SchEnoNotFound, st)
  | some pai =>
    if pai.status ≠ pisActive then (SchEnoNotFound, st)
    else
      let status :=
        if (assocFind st.deDupKeyMap k).isSome then KS_EXIST else KS_NOTEXIST
      match reportKey2Peer pai k status with
      | (some _, pai1) =>
        (SchEnoUserTask, { st with peerActived := assocSet st.peerActived spid pai1 })
      | (none, pai1) =>
        (SchEnoNone, { st with peerActived := assocSet st.peerActived spid pai1 })

/-- reportKeyFromPeer (chainshell.go): handler for an inbound RPTK frame
    (wire decode presupposed as for checkKeyFromPeer). When the sending peer
    is unknown or not active the frame is dropped with SchEnoNotFound and the
    state is untouched. Otherwise the pending entry is looked up in P; when
    absent the frame is dropped with SchEnoNotFound; when present its timer
    is killed, the entry is deleted, and for status NOTEXIST the saved
    request is handed to send2Peer. -/
def reportKeyFromPeer (st : ShellManager) (tmgr : TimerMgr)
    (spid : ShellPeerID) (k : DsKey) (status : Int) :
    SchErrno × ShellManager × TimerMgr :=
  match assocFind st.peerActived spid with
  | none => (SchEnoNotFound, st, tmgr)
  | some pai =>
    if pai.status ≠ pisActive then (SchEnoNotFound, st, tmgr)
    else
      let ddk : DeDupKey := { key := k, peer := spid }
      match assocFind st.deDupMap ddk with
      | none => (SchEnoNotFound, st, tmgr)
      | some ddv =>
        let tmgr1 := TimerMgr.killTimer tmgr ddv.timer
        let st1 := { st with deDupMap := assocErase st.deDupMap ddk }
        if status = KS_NOTEXIST then
          let sent := send2Peer pai ddv.bcReq
          (sent.1,
            { st1 with peerActived := assocSet st1.peerActived spid sent.2 }, tmgr1)
        else (SchEnoNone, st1, tmgr1)

/-- Modelled from the spec: the per-task timer slot count schMaxTaskTimer is
    declared outside src (the spec gives 16 as the example value); the claims
    about it do not depend on the concrete value. -/
def schMaxTaskTimer : Nat := 16

/-- The timer slot table of one task (field tmTab of schTask): an array of
    schMaxTaskTimer slots, each either empty or holding a timer node
    reference, modelled as a list of options of that length. -/
structure SchTaskTimers where
  tmTab : List (Option Nat)
deriving DecidableEq

/-- schKillTimer (schimpl.go): parameter check followed by the slot access.
    The source rejects a nil task pointer, tid below 0 and tid above
    schMaxTaskTimer, then reads tmTab at tid. An access outside the slot
    table, which panics at run time in Go, is modelled as the result none.
    An empty slot returns SchEnoNone at once; for an occupied slot the stop
    handshake with the timer task is summarized by the ack argument, giving
    SchEnoNone on a true acknowledgment and SchEnoInternal otherwise. -/
def schKillTimer (task : SchTaskTimers) (tid : Int) (ack : Bool) :
    Option SchErrno :=
  if tid < 0 ∨ tid > (schMaxTaskTimer : Int) then some SchEnoParameter
  else
    match task.tmTab.get? tid.toNat with
    | none => none
    | some none => some SchEnoNone
    | some (some _) => if ack then some SchEnoNone else some SchEnoInternal

/-- Task creation flag SchCreatedGo (value opaque, declared outside src). -/
def SchCreatedGo : Nat := 0

/-- Task creation flag SchCreatedSuspend (value opaque, declared outside src). -/
def SchCreatedSuspend : Nat := 1

/-- Task description (schTaskDescription): only the fields that drive the
    bookkeeping modelled here, the task name and the creation flag. -/
structure SchTaskDesc where
  name : String
  flag : Nat
deriving DecidableEq

/-- Scheduler bookkeeping state (struct scheduler): the free and busy queues
    of task nodes with their size counters, the name registry tkMap and the
    pool size. The intrusive doubly linked circular queues of the source are
    modelled as lists of node indices; the counters are kept as separate Int
    fields exactly as the source keeps them next to the queues. -/
structure SchedState where
  free : List Nat
  freeSize : Int
  busy : List Nat
  busySize : Int
  tkMap : List (String × Nat)
  poolSize : Nat
deriving DecidableEq

/-- schSchedulerInit (schimpl.go): all pool nodes are linked into the free
    queue, the busy queue is empty and the registry is empty. -/
def schSchedulerInit (poolSize : Nat) : SchedState :=
  { free := List.range poolSize
    freeSize := (poolSize : Int)
    busy := []
    busySize := 0
    tkMap := []
    poolSize := poolSize }

/-- schGetTaskNode (schimpl.go): dequeue the head of the free queue. The
    source decrements freeSize after unlinking and then checks it for
    consistency, returning SchEnoInternal on a mismatch with the queue
    shape; the embedding performs the same decrement-then-check. -/
def schGetTaskNode (s : SchedState) : SchErrno × Option Nat × SchedState :=
  match s.free with
  | [] => (SchEnoResource, none, s)
  | [n] =>
    let s1 := { s with free := [], freeSize := s.freeSize - 1 }
    if s1.freeSize ≠ 0 then (SchEnoInternal, none, s1)
    else (SchEnoNone, some n, s1)
  | n :: rest =>
    let s1 := { s with free := rest, freeSize := s.freeSize - 1 }
    if s1.freeSize ≤ 0 then (SchEnoInternal, none, s1)
    else (SchEnoNone, some n, s1)

/-- schRetTaskNode (schimpl.go): push a node back at the head of the free
    queue and increment freeSize. -/
def schRetTaskNode (s : SchedState) (n : Nat) : SchErrno × SchedState :=
  (SchEnoNone, { s with free := n :: s.free, freeSize := s.freeSize + 1 })

/-- schTaskBusyEnque (schimpl.go): push a node at the head of the busy queue
    and increment busySize (the source fails only on a nil pointer, which the
    model excludes by typing). -/
def schTaskBusyEnque (s : SchedState) (n : Nat) : SchErrno × SchedState :=
  (SchEnoNone, { s with busy := n :: s.busy, busySize := s.busySize + 1 })

/-- schTaskBusyDeque (schimpl.go): unlink a node from the busy queue. The
    source returns SchEnoInternal when busySize is not positive or the node
    is not linked where expected; the circular unlink is modelled as list
    removal of the node. -/
def schTaskBusyDeque (s : SchedState) (n : Nat) : SchErrno × SchedState :=
  if s.busySize ≤ 0 then (SchEnoInternal, s)
  else if n ∈ s.busy then
    (SchEnoNone, { s with busy := s.busy.erase n, busySize := s.busySize - 1 })
  else (SchEnoInternal, s)

/-- schCreateTask (schimpl.go): take a node from the free queue, register the
    trimmed task name (an empty name is allowed but unregistered, a
    duplicated name aborts with SchEnoDuplicated), enqueue the node on the
    busy queue and interpret the creation flag. On the duplicated-name path
    the source returns while the node taken from the free queue is neither
    returned to it nor enqueued on the busy queue. Mailbox, channel and
    watchdog setup touch no list bookkeeping and are omitted; the
    strings.TrimSpace normalization of the name (a Go stdlib call) is treated
    as already applied to the supplied name. -/
def schCreateTask (s : SchedState) (d : SchTaskDesc) :
    SchErrno × Option Nat × SchedState :=
  match schGetTaskNode s with
  | (SchEnoNone, some n, s1) =>
    let nm := d.name
    if nm.length = 0 then
      let s3 := (schTaskBusyEnque s1 n).2
      if d.flag = SchCreatedGo then (SchEnoNone, some n, s3)
      else if d.flag = SchCreatedSuspend then (SchEnoNone, some n, s3)
      else (SchEnoSuspended, some n, s3)
    else if (assocFind s1.tkMap nm).isSome then
      (SchEnoDuplicated, none, s1)
    else
      let s2 := { s1 with tkMap := (nm, n) :: s1.tkMap }
      let s3 := (schTaskBusyEnque s2 n).2
      if d.flag = SchCreatedGo then (SchEnoNone, some n, s3)
      else if d.flag = SchCreatedSuspend then (SchEnoNone, some n, s3)
      else (SchEnoSuspended, some n, s3)
  | (eno, _, s1) => (eno, none, s1)

/-- schStopTaskEx (schimpl.go): task teardown. The node is removed from the
    busy queue, the die callback and the timer kills touch no list
    bookkeeping, schTcbClean clears the task name, and the node is returned
    to the free queue. The final registry removal is guarded by the length of
    the task name, which schTcbClean has already cleared, so the guard is
    never taken; the embedding reproduces that order. -/
def schStopTaskEx (s : SchedState) (n : Nat) : SchErrno × SchedState :=
  match schTaskBusyDeque s n with
  | (SchEnoNone, s1) =>
    let clearedName : String := ""
    match schRetTaskNode s1 n with
    | (SchEnoNone, s2) =>
      if clearedName.length > 0 then
        (SchEnoNone, { s2 with tkMap := assocErase s2.tkMap clearedName })
      else (SchEnoNone, s2)
    | (e, s2) => (e, s2)
  | (e, s1) => (e, s1)

/-- Updating one key of an association list leaves the bindings of every
    other key unchanged. -/
theorem assocFind_assocSet_ne {α β : Type} [DecidableEq α] (l : List (α × β))
    (k a : α) (b : β) (h : a ≠ k) :
    assocFind (assocSet l a b) k = assocFind l k := by
  induction l with
  | nil => rfl
  | cons p rest ih =>
    obtain ⟨pk, pv⟩ := p
    simp only [assocSet]
    by_cases hpk : pk = a
    · subst hpk
      have hk : pk ≠ k := h
      simp only [if_pos rfl, assocFind, if_neg hk]
    · rw [if_neg hpk]
      simp only [assocFind]
      by_cases hk : pk = k
      · rw [if_pos hk, if_pos hk]
      · rw [if_neg hk, if_neg hk]
        exact ih

/-- Updating a key that is bound in an association list makes its first
    binding the new value. -/
theorem assocFind_assocSet_self {α β : Type} [DecidableEq α] (l : List (α × β))
    (k : α) (b : β) (h : (assocFind l k).isSome) :
    assocFind (assocSet l k b) k = some b := by
  induction l with
  | nil => simp [assocFind] at h
  | cons p rest ih =>
    obtain ⟨pk, pv⟩ := p
    simp only [assocSet]
    by_cases hpk : pk = k
    · rw [if_pos hpk]
      simp only [assocFind, if_pos hpk]
    · rw [if_neg hpk]
      simp only [assocFind, if_neg hpk]
      simp only [assocFind, if_neg hpk] at h
      exact ih h

/-- Concrete peer record for the C5 witness. -/
def c5peer : ShellPeerInst :=
  { id := { snid := 0, dir := 0, nodeId := 7 }
    txChan := [TxFrame.pkgChkk 1]
    txCap := 1
    status := pisActive
    txDiscrd := 0 }

/-- Concrete broadcast request for the C5 witness. -/
def c5req : MsgShellBroadcastReq :=
  { msgType := MSBR_MT_TX, key := 5, data := [1, 2], exclude := none }

/-- Concrete pending key for the C5 witness. -/
def c5ddk : DeDupKey := { key := 5, peer := { snid := 0, dir := 0, nodeId := 7 } }

/-- C5: on a full tx channel, both the payload send (send2Peer) and the CHKK
    send (checkKey2Peer) discard the frame without blocking, increment the
    per-peer discard counter txDiscrd by one, return the SchEnoResource
    (ResourceBusy) error, and change nothing else: the result record differs
    from the input peer only in txDiscrd, so the tx channel and every other
    peer are untouched. -/
theorem txFull_discard (spi : ShellPeerInst) (req : MsgShellBroadcastReq)
    (ddk : DeDupKey) (hfull : spi.txCap ≤ spi.txChan.length) :
    send2Peer spi req = (SchEnoResource, { spi with txDiscrd := spi.txDiscrd + 1 }) ∧
    checkKey2Peer spi ddk = (some SchEnoResource, { spi with txDiscrd := spi.txDiscrd + 1 }) := by
  constructor
  · simp only [send2Peer]
    rw [if_pos hfull]
  · simp only [checkKey2Peer]
    rw [if_pos hfull]

/-- Witness for C5 at a concrete full peer queue. -/
theorem txFull_discard_witness :
    c5peer.txCap ≤ c5peer.txChan.length ∧
    (send2Peer c5peer c5req = (SchEnoResource, { c5peer with txDiscrd := c5peer.txDiscrd + 1 }) ∧
     checkKey2Peer c5peer c5ddk = (some SchEnoResource, { c5peer with txDiscrd := c5peer.txDiscrd + 1 })) :=
  ⟨by decide, txFull_discard c5peer c5req c5ddk (by decide)⟩

/-- Concrete shell state for the C9 witness: empty maps. -/
def c9st : ShellManager :=
  { peerActived := [], deDup := true, deDupKeyMap := [], deDupMap := [] }

/-- Concrete timer manager for the C9 witness: GetTimer succeeds and
    StartTimer always fails. -/
def c9tmgr : TimerMgr :=
  { next := 0, live := [], getOk := fun _ => true, startOk := fun _ => false }

/-- C9: in setKeyMap, once GetTimer has succeeded the function can no longer
    return SKM_FAILED: the error variable tested after the StartTimer call is
    the stale GetTimer result, so for every StartTimer behavior (the timer
    manager tmgr, including its startOk oracle, is arbitrary) the key is
    inserted into the known-key map and SKM_OK is returned. -/
theorem setKeyMap_stale_err (st : ShellManager) (tmgr : TimerMgr) (k : DsKey)
    (habsent : assocFind st.deDupKeyMap k = none)
    (hget : tmgr.getOk tmgr.next = true) :
    (setKeyMap st tmgr k).1 = SKM_OK ∧
    (setKeyMap st tmgr k).1 ≠ SKM_FAILED ∧
    (setKeyMap st tmgr k).2.1.deDupKeyMap = (k, tmgr.next) :: st.deDupKeyMap := by
  have h1 : (assocFind st.deDupKeyMap k).isSome = false := by
    rw [habsent]; rfl
  simp [setKeyMap, h1, TimerMgr.getTimer, hget, SKM_OK, SKM_FAILED]

/-- Witness for C9: with a timer manager whose StartTimer always fails, the
    key is still inserted and SKM_OK returned. -/
theorem setKeyMap_stale_err_witness :
    assocFind c9st.deDupKeyMap 5 = none ∧ c9tmgr.getOk c9tmgr.next = true ∧
    ((setKeyMap c9st c9tmgr 5).1 = SKM_OK ∧
     (setKeyMap c9st c9tmgr 5).1 ≠ SKM_FAILED ∧
     (setKeyMap c9st c9tmgr 5).2.1.deDupKeyMap = (5, c9tmgr.next) :: c9st.deDupKeyMap) :=
  ⟨rfl, rfl, setKeyMap_stale_err c9st c9tmgr 5 rfl rfl⟩

/-- C4: a successful setKeyMap of key k makes checkKeyMap answer
    SKM_DUPLICATED for as long as the keyTime eviction timer of k has not
    fired, and once that timer fires (its expiry runs deDupKeyCb on k) the
    same checkKeyMap answers SKM_OK again. -/
theorem setKeyMap_roundtrip (st : ShellManager) (tmgr : TimerMgr) (k : DsKey)
    (hOk : (setKeyMap st tmgr k).1 = SKM_OK) :
    checkKeyMap (setKeyMap st tmgr k).2.1 k = SKM_DUPLICATED ∧
    checkKeyMap (deDupKeyCb (setKeyMap st tmgr k).2.1 k) k = SKM_OK := by
  by_cases hmem : (assocFind st.deDupKeyMap k).isSome
  · exfalso
    simp [setKeyMap, hmem, SKM_DUPLICATED, SKM_OK] at hOk
  · have hnone : assocFind st.deDupKeyMap k = none :=
      Option.not_isSome_iff_eq_none.mp hmem
    by_cases hget : tmgr.getOk tmgr.next = true
    · simp [setKeyMap, hmem, TimerMgr.getTimer, hget, checkKeyMap, deDupKeyCb,
        assocFind, assocErase, hnone, SKM_OK, SKM_DUPLICATED]
    · exfalso
      simp [setKeyMap, hmem, TimerMgr.getTimer, hget, SKM_FAILED, SKM_OK] at hOk

/-- Concrete shell state for the C4 witness. -/
def c4st : ShellManager :=
  { peerActived := [], deDup := true, deDupKeyMap := [(9, 3)], deDupMap := [] }

/-- Concrete timer manager for the C4 witness. -/
def c4tmgr : TimerMgr :=
  { next := 4, live := [], getOk := fun _ => true, startOk := fun _ => true }

/-- Witness for C4 at a concrete state and key. -/
theorem setKeyMap_roundtrip_witness :
    (setKeyMap c4st c4tmgr 5).1 = SKM_OK ∧
    (checkKeyMap (setKeyMap c4st c4tmgr 5).2.1 5 = SKM_DUPLICATED ∧
     checkKeyMap (deDupKeyCb (setKeyMap c4st c4tmgr 5).2.1 5) 5 = SKM_OK) :=
  ⟨rfl, setKeyMap_roundtrip c4st c4tmgr 5 rfl⟩

/-- C1 (amended): with deduplication enabled and a broadcast request of one
    of the four broadcast message types whose content key is already present
    in the known-key map, broadcastReq aborts before the peer loop: the
    returned status is SchEnoUserTask (a generic user-task failure, not the
    SchEnoDuplicated code) and the state, in particular every tx channel and
    every peer record, is returned unchanged. -/
theorem broadcastReq_duplicate_aborts (st : ShellManager) (tmgr : TimerMgr)
    (req : MsgShellBroadcastReq) (tm : Nat)
    (hdedup : st.deDup = true)
    (htype : validBcrType req.msgType = true)
    (hkey : assocFind st.deDupKeyMap req.key = some tm) :
    broadcastReq st tmgr req = (SchEnoUserTask, st, tmgr) := by
  have hsome : (assocFind st.deDupKeyMap req.key).isSome := by
    rw [hkey]; rfl
  simp [broadcastReq, htype, hdedup, setKeyMap, hsome, SKM_DUPLICATED, SKM_FAILED]

/-- Concrete shell state for C1: key 5 already known, one active peer. -/
def c1st : ShellManager :=
  { peerActived :=
      [({ snid := 0, dir := 0, nodeId := 7 },
        { id := { snid := 0, dir := 0, nodeId := 7 }, txChan := [], txCap := 4,
          status := pisActive, txDiscrd := 0 })]
    deDup := true
    deDupKeyMap := [(5, 0)]
    deDupMap := [] }

/-- Concrete timer manager for C1. -/
def c1tmgr : TimerMgr :=
  { next := 1, live := [0], getOk := fun _ => true, startOk := fun _ => true }

/-- Concrete broadcast request for C1 carrying the already-known key 5. -/
def c1req : MsgShellBroadcastReq :=
  { msgType := MSBR_MT_EV, key := 5, data := [1], exclude := none }

/-- Counterexample for C1 as stated: at a concrete state whose known-key map
    already holds the key, broadcastReq returns SchEnoUserTask, which is not
    the SchEnoDuplicated status the claim names. -/
theorem broadcastReq_duplicate_status_cex :
    (broadcastReq c1st c1tmgr c1req).1 = SchEnoUserTask ∧
    (broadcastReq c1st c1tmgr c1req).1 ≠ SchEnoDuplicated := by
  constructor
  · rfl
  · decide

/-- Witness for the amended C1 at the same concrete input. -/
theorem broadcastReq_duplicate_aborts_witness :
    c1st.deDup = true ∧ validBcrType c1req.msgType = true ∧
    assocFind c1st.deDupKeyMap c1req.key = some 0 ∧
    broadcastReq c1st c1tmgr c1req = (SchEnoUserTask, c1st, c1tmgr) :=
  ⟨rfl, rfl, rfl, broadcastReq_duplicate_aborts c1st c1tmgr c1req 0 rfl rfl rfl⟩

/-- C7 (amended): an RPTK frame whose sending peer is absent from the peer
    table, or present but no longer active, is dropped with SchEnoNotFound
    and the state is returned untouched; in particular the pending entry for
    that key and peer is NOT cleared by the handler (it is left for its
    chkkTime timer to evict). -/
theorem reportKeyFromPeer_inactive_drop (st : ShellManager) (tmgr : TimerMgr)
    (spid : ShellPeerID) (k : DsKey) (status : Int)
    (h : assocFind st.peerActived spid = none ∨
         ∃ pai, assocFind st.peerActived spid = some pai ∧ pai.status ≠ pisActive) :
    reportKeyFromPeer st tmgr spid k status = (SchEnoNotFound, st, tmgr) := by
  rcases h with hnone | ⟨pai, hfind, hstat⟩
  · simp [reportKeyFromPeer, hnone]
  · simp [reportKeyFromPeer, hfind, hstat]

/-- Concrete peer identity for C7. -/
def c7pid : ShellPeerID := { snid := 0, dir := 1, nodeId := 9 }

/-- Concrete pending value for C7. -/
def c7ddv : DeDupVal :=
  { bcReq := { msgType := MSBR_MT_BLK, key := 5, data := [3], exclude := none }
    timer := 2 }

/-- Concrete shell state for C7: a pending entry for key 5 and peer c7pid,
    while the peer itself is absent from the peer table. -/
def c7st : ShellManager :=
  { peerActived := [], deDup := true, deDupKeyMap := []
    deDupMap := [({ key := 5, peer := c7pid }, c7ddv)] }

/-- Concrete timer manager for C7. -/
def c7tmgr : TimerMgr :=
  { next := 3, live := [2], getOk := fun _ => true, startOk := fun _ => true }

/-- Counterexample for C7 as stated: after the handler drops an RPTK from the
    absent peer, the pending entry is still present in the map, so it was not
    cleared as the claim asserts. -/
theorem reportKeyFromPeer_entry_kept_cex :
    (reportKeyFromPeer c7st c7tmgr c7pid 5 KS_NOTEXIST).1 = SchEnoNotFound ∧
    assocFind (reportKeyFromPeer c7st c7tmgr c7pid 5 KS_NOTEXIST).2.1.deDupMap
      { key := 5, peer := c7pid } = some c7ddv := by
  constructor
  · rfl
  · rfl

/-- Witness for the amended C7 at the same concrete input. -/
theorem reportKeyFromPeer_inactive_drop_witness :
    (assocFind c7st.peerActived c7pid = none ∨
     ∃ pai, assocFind c7st.peerActived c7pid = some pai ∧ pai.status ≠ pisActive) ∧
    reportKeyFromPeer c7st c7tmgr c7pid 5 KS_NOTEXIST = (SchEnoNotFound, c7st, c7tmgr) :=
  ⟨Or.inl rfl, reportKeyFromPeer_inactive_drop c7st c7tmgr c7pid 5 KS_NOTEXIST (Or.inl rfl)⟩

/-- C8: the free-plus-busy accounting of the task node pool is broken by the
    duplicate-name failure path of schCreateTask. Starting from a freshly
    initialized scheduler with four pool nodes, a first creation of task
    alice succeeds and keeps free size plus busy size equal to the pool size,
    but a second creation under the same name returns SchEnoDuplicated while
    the node dequeued from the free queue is neither returned to it nor
    enqueued on the busy queue: afterwards free size plus busy size is the
    pool size minus one, so the invariant claimed for every operation fails
    on this path. -/
theorem schCreateTask_duplicate_leak :
    (schCreateTask (schSchedulerInit 4) { name := "alice", flag := SchCreatedGo }).1 = SchEnoNone ∧
    (let s1 := (schCreateTask (schSchedulerInit 4) { name := "alice", flag := SchCreatedGo }).2.2
     s1.free.length + s1.busy.length = s1.poolSize ∧
     (schCreateTask s1 { name := "alice", flag := SchCreatedGo }).1 = SchEnoDuplicated ∧
     (schCreateTask s1 { name := "alice", flag := SchCreatedGo }).2.2.free.length +
       (schCreateTask s1 { name := "alice", flag := SchCreatedGo }).2.2.busy.length + 1 =
       (schCreateTask s1 { name := "alice", flag := SchCreatedGo }).2.2.poolSize) := by
  refine ⟨rfl, rfl, rfl, rfl⟩

/-- C10: the parameter check of schKillTimer is off by one. The timer id
    equal to schMaxTaskTimer passes the check, which rejects only tid below 0
    or tid above schMaxTaskTimer, yet the slot table has exactly
    schMaxTaskTimer slots, so the subsequent access is out of bounds (the
    result none models the Go index-out-of-range panic) instead of the
    SchEnoParameter the claim asserts for every tid outside the valid range. -/
theorem schKillTimer_off_by_one :
    (¬ ((schMaxTaskTimer : Int) < 0 ∨ (schMaxTaskTimer : Int) > (schMaxTaskTimer : Int))) ∧
    schKillTimer { tmTab := List.replicate schMaxTaskTimer none }
      (schMaxTaskTimer : Int) true = none ∧
    schKillTimer { tmTab := List.replicate schMaxTaskTimer none }
      (schMaxTaskTimer : Int) true ≠ some SchEnoParameter := by
  refine ⟨by decide, by decide, by decide⟩

/-- C3 (amended): a CHKK frame from an active peer whose tx queue has room is
    answered with exactly one RPTK frame for the same key appended to that
    queue, whose status is EXIST exactly when the key is in the known-key map
    and NOTEXIST otherwise; when the tx queue is full the reply is discarded
    by the bounded send instead (see the counterexample). -/
theorem checkKeyFromPeer_reply (st : ShellManager) (spid : ShellPeerID)
    (k : DsKey) (pai : ShellPeerInst)
    (hpeer : assocFind st.peerActived spid = some pai)
    (hact : pai.status = pisActive)
    (hroom : pai.txChan.length < pai.txCap) :
    checkKeyFromPeer st spid k =
      (SchEnoNone,
        { st with
            peerActived :=
              assocSet st.peerActived spid
                { pai with
                    txChan :=
                      pai.txChan ++
                        [TxFrame.pkgRptk k
                          (if (assocFind st.deDupKeyMap k).isSome then KS_EXIST
                           else KS_NOTEXIST)] } }) := by
  have hnotfull : ¬ (pai.txChan.length ≥ pai.txCap) := by omega
  simp [checkKeyFromPeer, hpeer, hact, reportKey2Peer, hnotfull]

/-- Concrete peer identity for C3. -/
def c3pid : ShellPeerID := { snid := 1, dir := 0, nodeId := 4 }

/-- Concrete peer record for the C3 counterexample: tx queue full. -/
def c3pai : ShellPeerInst :=
  { id := c3pid, txChan := [TxFrame.pkgChkk 9], txCap := 1,
    status := pisActive, txDiscrd := 0 }

/-- Concrete shell state for the C3 counterexample. -/
def c3st : ShellManager :=
  { peerActived := [(c3pid, c3pai)], deDup := true, deDupKeyMap := [], deDupMap := [] }

/-- Counterexample for C3 as stated: with the tx queue of the sender full,
    the handler discards the reply, so no RPTK frame is enqueued (only the
    discard counter moves), contradicting the claimed unconditional reply. -/
theorem checkKeyFromPeer_full_queue_cex :
    (checkKeyFromPeer c3st c3pid 5).1 = SchEnoUserTask ∧
    assocFind (checkKeyFromPeer c3st c3pid 5).2.peerActived c3pid =
      some { c3pai with txDiscrd := 1 } ∧
    assocFind (checkKeyFromPeer c3st c3pid 5).2.peerActived c3pid ≠
      some { c3pai with txChan := c3pai.txChan ++ [TxFrame.pkgRptk 5 KS_NOTEXIST] } := by
  refine ⟨rfl, rfl, by decide⟩

/-- Concrete peer record for the C3 witness: tx queue with room. -/
def c3wpai : ShellPeerInst :=
  { id := c3pid, txChan := [], txCap := 4, status := pisActive, txDiscrd := 0 }

/-- Concrete shell state for the C3 witness: key 5 is known, so the reply
    carries EXIST. -/
def c3wst : ShellManager :=
  { peerActived := [(c3pid, c3wpai)], deDup := true, deDupKeyMap := [(5, 0)], deDupMap := [] }

/-- Witness for the amended C3 at a concrete state. -/
theorem checkKeyFromPeer_reply_witness :
    assocFind c3wst.peerActived c3pid = some c3wpai ∧
    c3wpai.status = pisActive ∧
    c3wpai.txChan.length < c3wpai.txCap ∧
    checkKeyFromPeer c3wst c3pid 5 =
      (SchEnoNone,
        { c3wst with
            peerActived :=
              assocSet c3wst.peerActived c3pid
                { c3wpai with
                    txChan :=
                      c3wpai.txChan ++
                        [TxFrame.pkgRptk 5
                          (if (assocFind c3wst.deDupKeyMap 5).isSome then KS_EXIST
                           else KS_NOTEXIST)] } }) :=
  ⟨rfl, rfl, by decide, checkKeyFromPeer_reply c3wst c3pid 5 c3wpai rfl rfl (by decide)⟩

/-- C2 (amended): for an RPTK frame from a peer that is present and active,
    if no pending entry exists for (key, peer) the frame is dropped with
    SchEnoNotFound and the state is unchanged; if an entry exists, its timer
    is killed, the entry is deleted from the pending map, and the saved
    broadcast request is enqueued on the tx channel of the peer exactly when
    the reported status is NOTEXIST and that tx channel has room (a full
    channel discards the payload; on EXIST nothing is sent). -/
theorem reportKeyFromPeer_behavior (st : ShellManager) (tmgr : TimerMgr)
    (spid : ShellPeerID) (k : DsKey) (status : Int) (pai : ShellPeerInst)
    (hpeer : assocFind st.peerActived spid = some pai)
    (hact : pai.status = pisActive) :
    (assocFind st.deDupMap { key := k, peer := spid } = none →
       reportKeyFromPeer st tmgr spid k status = (SchEnoNotFound, st, tmgr)) ∧
    (∀ ddv, assocFind st.deDupMap { key := k, peer := spid } = some ddv →
       (reportKeyFromPeer st tmgr spid k status).2.2 = TimerMgr.killTimer tmgr ddv.timer ∧
       (reportKeyFromPeer st tmgr spid k status).2.1.deDupMap =
         assocErase st.deDupMap { key := k, peer := spid } ∧
       ((assocFind (reportKeyFromPeer st tmgr spid k status).2.1.peerActived spid =
           some { pai with txChan := pai.txChan ++ [bcr2Package ddv.bcReq] }) ↔
         (status = KS_NOTEXIST ∧ pai.txChan.length < pai.txCap))) := by
  constructor
  · intro hnone
    simp [reportKeyFromPeer, hpeer, hact, hnone]
  · intro ddv hsome
    by_cases hst : status = KS_NOTEXIST
    · by_cases hroom : pai.txChan.length < pai.txCap
      · have hnotfull : ¬ (pai.txChan.length ≥ pai.txCap) := by omega
        have hred : reportKeyFromPeer st tmgr spid k status =
            (SchEnoNone,
              { st with
                  peerActived :=
                    assocSet st.peerActived spid
                      { pai with txChan := pai.txChan ++ [bcr2Package ddv.bcReq] }
                  deDupMap := assocErase st.deDupMap { key := k, peer := spid } },
              TimerMgr.killTimer tmgr ddv.timer) := by
          simp [reportKeyFromPeer, hpeer, hact, hsome, hst, send2Peer, hnotfull]
        refine ⟨by rw [hred], by rw [hred], ?_⟩
        rw [hred]
        constructor
        · intro _
          exact ⟨hst, hroom⟩
        · intro _
          exact assocFind_assocSet_self _ _ _ (by rw [hpeer]; rfl)
      · have hfull : pai.txChan.length ≥ pai.txCap := by omega
        have hred : reportKeyFromPeer st tmgr spid k status =
            (SchEnoResource,
              { st with
                  peerActived :=
                    assocSet st.peerActived spid
                      { pai with txDiscrd := pai.txDiscrd + 1 }
                  deDupMap := assocErase st.deDupMap { key := k, peer := spid } },
              TimerMgr.killTimer tmgr ddv.timer) := by
          simp [reportKeyFromPeer, hpeer, hact, hsome, hst, send2Peer, hfull]
        refine ⟨by rw [hred], by rw [hred], ?_⟩
        rw [hred]
        constructor
        · intro hfound
          exfalso
          have hself : assocFind
              (assocSet st.peerActived spid { pai with txDiscrd := pai.txDiscrd + 1 }) spid =
              some { pai with txDiscrd := pai.txDiscrd + 1 } :=
            assocFind_assocSet_self _ _ _ (by rw [hpeer]; rfl)
          rw [hself] at hfound
          have hrec := Option.some.inj hfound
          have htx := congrArg ShellPeerInst.txChan hrec
          simp only at htx
          have hlen := congrArg List.length htx
          simp at hlen
        · intro hcontra
          exact absurd hcontra.2 hroom
    · have hred : reportKeyFromPeer st tmgr spid k status =
          (SchEnoNone,
            { st with deDupMap := assocErase st.deDupMap { key := k, peer := spid } },
            TimerMgr.killTimer tmgr ddv.timer) := by
        simp [reportKeyFromPeer, hpeer, hact, hsome, hst]
      refine ⟨by rw [hred], by rw [hred], ?_⟩
      rw [hred]
      constructor
      · intro hfound
        exfalso
        simp only [hpeer] at hfound
        have hrec := Option.some.inj hfound
        have htx := congrArg ShellPeerInst.txChan hrec
        simp only at htx
        have hlen := congrArg List.length htx
        simp at hlen
      · intro hcontra
        exact absurd hcontra.1 hst

/-- Concrete peer identity for C2. -/
def c2pid : ShellPeerID := { snid := 2, dir := 1, nodeId := 8 }

/-- Concrete peer record for the C2 counterexample: tx queue full. -/
def c2pai : ShellPeerInst :=
  { id := c2pid, txChan := [TxFrame.pkgChkk 5], txCap := 1,
    status := pisActive, txDiscrd := 0 }

/-- Concrete pending value for C2. -/
def c2ddv : DeDupVal :=
  { bcReq := { msgType := MSBR_MT_TX, key := 5, data := [7], exclude := none }
    timer := 11 }

/-- Concrete shell state for the C2 counterexample: pending entry present,
    peer active, tx queue full. -/
def c2st : ShellManager :=
  { peerActived := [(c2pid, c2pai)], deDup := true, deDupKeyMap := []
    deDupMap := [({ key := 5, peer := c2pid }, c2ddv)] }

/-- Concrete timer manager for C2. -/
def c2tmgr : TimerMgr :=
  { next := 12, live := [11], getOk := fun _ => true, startOk := fun _ => true }

/-- Counterexample for C2 as stated: the reported status is NOTEXIST and the
    pending entry exists, yet no frame is enqueued because the tx queue of
    the peer is full (only the discard counter moves), refuting the claimed
    equivalence of enqueueing with the NOTEXIST status. -/
theorem reportKeyFromPeer_full_queue_cex :
    assocFind c2st.deDupMap { key := 5, peer := c2pid } = some c2ddv ∧
    assocFind (reportKeyFromPeer c2st c2tmgr c2pid 5 KS_NOTEXIST).2.1.peerActived c2pid =
      some { c2pai with txDiscrd := 1 } ∧
    assocFind (reportKeyFromPeer c2st c2tmgr c2pid 5 KS_NOTEXIST).2.1.peerActived c2pid ≠
      some { c2pai with txChan := c2pai.txChan ++ [bcr2Package c2ddv.bcReq] } := by
  refine ⟨rfl, rfl, by decide⟩

/-- Concrete peer record for the C2 witness: tx queue with room. -/
def c2wpai : ShellPeerInst :=
  { id := c2pid, txChan := [], txCap := 4, status := pisActive, txDiscrd := 0 }

/-- Concrete shell state for the C2 witness. -/
def c2wst : ShellManager :=
  { peerActived := [(c2pid, c2wpai)], deDup := true, deDupKeyMap := []
    deDupMap := [({ key := 5, peer := c2pid }, c2ddv)] }

/-- Witness for the amended C2 at a concrete state. -/
theorem reportKeyFromPeer_behavior_witness :
    assocFind c2wst.peerActived c2pid = some c2wpai ∧
    c2wpai.status = pisActive ∧
    ((assocFind c2wst.deDupMap { key := 5, peer := c2pid } = none →
        reportKeyFromPeer c2wst c2tmgr c2pid 5 KS_NOTEXIST = (SchEnoNotFound, c2wst, c2tmgr)) ∧
     (∀ ddv, assocFind c2wst.deDupMap { key := 5, peer := c2pid } = some ddv →
        (reportKeyFromPeer c2wst c2tmgr c2pid 5 KS_NOTEXIST).2.2 =
          TimerMgr.killTimer c2tmgr ddv.timer ∧
        (reportKeyFromPeer c2wst c2tmgr c2pid 5 KS_NOTEXIST).2.1.deDupMap =
          assocErase c2wst.deDupMap { key := 5, peer := c2pid } ∧
        ((assocFind (reportKeyFromPeer c2wst c2tmgr c2pid 5 KS_NOTEXIST).2.1.peerActived c2pid =
            some { c2wpai with txChan := c2wpai.txChan ++ [bcr2Package ddv.bcReq] }) ↔
          (KS_NOTEXIST = KS_NOTEXIST ∧ c2wpai.txChan.length < c2wpai.txCap)))) :=
  ⟨rfl, rfl, reportKeyFromPeer_behavior c2wst c2tmgr c2pid 5 KS_NOTEXIST c2wpai rfl rfl⟩

/-- The peer table after a checkKey call is either unchanged or an update of
    the single addressed peer entry. -/
theorem checkKey_peerActived_shape (st : ShellManager) (tmgr : TimerMgr)
    (pid : ShellPeerID) (req : MsgShellBroadcastReq) :
    (checkKey st tmgr pid req).2.1.peerActived = st.peerActived ∨
    ∃ v, (checkKey st tmgr pid req).2.1.peerActived = assocSet st.peerActived pid v := by
  unfold checkKey
  dsimp only
  split
  · exact Or.inl rfl
  · split
    · exact Or.inl rfl
    · split
      · exact Or.inr ⟨_, rfl⟩
      · split
        · split
          · exact Or.inr ⟨_, rfl⟩
          · exact Or.inr ⟨_, rfl⟩
        · exact Or.inr ⟨_, rfl⟩

/-- One broadcast loop iteration leaves the entry of any non-active peer
    untouched, whichever peer the iteration addresses. -/
theorem bcastPeerStep_closing (deDup : Bool) (req : MsgShellBroadcastReq)
    (st : ShellManager) (tmgr : TimerMgr) (pid2 : ShellPeerID)
    (pe : ShellPeerInst)
    (hfind : assocFind st.peerActived pid2 = some pe)
    (hclos : pe.status ≠ pisActive) (pid : ShellPeerID) :
    assocFind (bcastPeerStep deDup req st tmgr pid).1.peerActived pid2 = some pe := by
  unfold bcastPeerStep
  cases hfind2 : assocFind st.peerActived pid with
  | none => exact hfind
  | some pe2 =>
    dsimp only
    by_cases hact : pe2.status ≠ pisActive
    · rw [if_pos hact]
      exact hfind
    · push_neg at hact
      have hne : pid2 ≠ pid := by
        intro he
        rw [he, hfind2] at hfind
        injection hfind with h
        subst h
        exact hclos hact
      have hcond : ¬ (pe2.status ≠ pisActive) := fun hc => hc hact
      rw [if_neg hcond]
      by_cases hexc : bcrNotExcluded req.exclude pid = true
      · rw [if_pos hexc]
        by_cases hdd : deDup = false
        · rw [if_pos hdd]
          dsimp only
          rw [assocFind_assocSet_ne _ _ _ _ (Ne.symm hne)]
          exact hfind
        · rw [if_neg hdd]
          dsimp only
          rcases checkKey_peerActived_shape st tmgr pid req with hsh | ⟨v, hsh⟩
          · rw [hsh]; exact hfind
          · rw [hsh, assocFind_assocSet_ne _ _ _ _ (Ne.symm hne)]; exact hfind
      · rw [if_neg hexc]
        exact hfind

/-- The whole broadcast loop leaves the entry of any non-active peer
    untouched. -/
theorem bcastLoop_closing (deDup : Bool) (req : MsgShellBroadcastReq)
    (pids : List ShellPeerID) (pid2 : ShellPeerID) (pe : ShellPeerInst)
    (hclos : pe.status ≠ pisActive) :
    ∀ (st : ShellManager) (tmgr : TimerMgr),
      assocFind st.peerActived pid2 = some pe →
      assocFind (bcastLoop deDup req pids st tmgr).1.peerActived pid2 = some pe := by
  induction pids with
  | nil => intro st tmgr hfind; exact hfind
  | cons pid rest ih =>
    intro st tmgr hfind
    exact ih _ _ (bcastPeerStep_closing deDup req st tmgr pid2 pe hfind hclos pid)

/-- setKeyMap never touches the peer table. -/
theorem setKeyMap_peerActived (st : ShellManager) (tmgr : TimerMgr) (k : DsKey) :
    (setKeyMap st tmgr k).2.1.peerActived = st.peerActived := by
  unfold setKeyMap
  repeat' split
  all_goals rfl

/-- C6: the broadcast dispatcher never enqueues a frame on the tx channel of
    a peer whose status is Closing: for every state, timer-manager behavior
    and request, the entry of such a peer, in particular its tx channel, is
    identical after broadcastReq, because the peer loop skips every peer that
    is not Active on both the direct-send path and the CHKK path, and the
    setKeyMap pre-pass touches no peer entry. -/
theorem broadcastReq_skips_closing (st : ShellManager) (tmgr : TimerMgr)
    (req : MsgShellBroadcastReq) (pid : ShellPeerID) (pe : ShellPeerInst)
    (hfind : assocFind st.peerActived pid = some pe)
    (hclos : pe.status = pisClosing) :
    assocFind (broadcastReq st tmgr req).2.1.peerActived pid = some pe := by
  have hnact : pe.status ≠ pisActive := by rw [hclos]; decide
  unfold broadcastReq
  by_cases htype : validBcrType req.msgType = true
  · rw [if_pos htype]
    dsimp only
    have hpre : (if st.deDup then setKeyMap st tmgr req.key
        else (SKM_OK, st, tmgr)).2.1.peerActived = st.peerActived := by
      by_cases hdd : st.deDup = true
      · rw [if_pos hdd]; exact setKeyMap_peerActived st tmgr req.key
      · rw [if_neg hdd]
    by_cases hb : (st.deDup &&
        ((if st.deDup then setKeyMap st tmgr req.key else (SKM_OK, st, tmgr)).1 == SKM_DUPLICATED ||
         (if st.deDup then setKeyMap st tmgr req.key else (SKM_OK, st, tmgr)).1 == SKM_FAILED)) = true
    · rw [if_pos hb]
      dsimp only
      rw [hpre]
      exact hfind
    · rw [if_neg hb]
      dsimp only
      exact bcastLoop_closing st.deDup req _ pid pe hnact _ _ (by rw [hpre]; exact hfind)
  · rw [if_neg htype]
    exact hfind

/-- Concrete closing peer identity for C6. -/
def c6pid : ShellPeerID := { snid := 0, dir := 0, nodeId := 3 }

/-- Concrete closing peer record for C6. -/
def c6pe : ShellPeerInst :=
  { id := c6pid, txChan := [], txCap := 4, status := pisClosing, txDiscrd := 0 }

/-- Concrete active peer identity for C6. -/
def c6pid2 : ShellPeerID := { snid := 0, dir := 0, nodeId := 4 }

/-- Concrete active peer record for C6. -/
def c6pe2 : ShellPeerInst :=
  { id := c6pid2, txChan := [], txCap := 4, status := pisActive, txDiscrd := 0 }

/-- Concrete shell state for the C6 witness: one closing and one active peer,
    deduplication on. -/
def c6st : ShellManager :=
  { peerActived := [(c6pid, c6pe), (c6pid2, c6pe2)], deDup := true,
    deDupKeyMap := [], deDupMap := [] }

/-- Concrete timer manager for C6. -/
def c6tmgr : TimerMgr :=
  { next := 0, live := [], getOk := fun _ => true, startOk := fun _ => true }

/-- Concrete broadcast request for C6. -/
def c6req : MsgShellBroadcastReq :=
  { msgType := MSBR_MT_BLKH, key := 9, data := [1], exclude := none }

/-- Witness for C6 at a concrete state with a closing and an active peer. -/
theorem broadcastReq_skips_closing_witness :
    assocFind c6st.peerActived c6pid = some c6pe ∧
    c6pe.status = pisClosing ∧
    assocFind (broadcastReq c6st c6tmgr c6req).2.1.peerActived c6pid = some c6pe :=
  ⟨rfl, rfl, broadcastReq_skips_closing c6st c6tmgr c6req c6pid c6pe rfl rfl⟩
